import Mathlib

/-!
# OpenClicker rendering context (`OpenClicker/Renderer.hpp`)

A shallow embedding of the state container `RenderingContext` and of its
member functions `logln`, `get_button_state`, `set_button_state`,
`get_widget_state` and `set_widget_state`.

Conventions of the embedding:

* a scoped enumeration is an inductive type with one constructor per
  enumerator, and `toNat` is `static_cast<std::size_t>` on it;
* `std::bitset<N>` is a family of `N` bits; `operator[]` outside `0..N-1`
  (undefined behaviour) and `set` outside `0..N-1` (which throws
  `std::out_of_range`) yield `none`;
* a `noexcept` member function returns `Option`: `none` stands for the call
  not returning (an exception reaching the `noexcept` boundary, or undefined
  behaviour);
* `std::string` is `String`, one `Char` for each `char`;
* `int` and `std::int32_t` fields are `Int`, `std::size_t` counters are `Nat`.
-/

namespace OpenClicker

/-! ## Enumerations -/

/-- Scoped enumeration `ClickType`. -/
inductive ClickType where
  | SingleClick
  | DoubleClick
  | SizeOfClickTypeDontTouch
  deriving DecidableEq, Repr

/-- Numeric value of a `ClickType` enumerator. -/
def ClickType.toNat : ClickType → Nat
  | .SingleClick => 0
  | .DoubleClick => 1
  | .SizeOfClickTypeDontTouch => 2

/-- Constant `click_type_count`. -/
def click_type_count : Nat := ClickType.SizeOfClickTypeDontTouch.toNat

/-- Scoped enumeration `MouseButton`. -/
inductive MouseButton where
  | LeftClick
  | RightClick
  | TopSideButton
  | BottomSideButton
  | SizeOfMouseButtonDontTouch
  deriving DecidableEq, Repr

/-- Numeric value of a `MouseButton` enumerator. -/
def MouseButton.toNat : MouseButton → Nat
  | .LeftClick => 0
  | .RightClick => 1
  | .TopSideButton => 2
  | .BottomSideButton => 3
  | .SizeOfMouseButtonDontTouch => 4

/-- Constant `mouse_button_count`. -/
def mouse_button_count : Nat := MouseButton.SizeOfMouseButtonDontTouch.toNat

/-- Scoped enumeration `InputWidget`. -/
inductive InputWidget where
  | MillisecondBetweenClick
  | LaunchDelay
  | Coordinates
  | ClickType
  | MouseButtonSelection
  | TimeScaleSelection
  | CountOfWidgetsDontMove
  deriving DecidableEq, Repr

/-- Numeric value of an `InputWidget` enumerator. -/
def InputWidget.toNat : InputWidget → Nat
  | .MillisecondBetweenClick => 0
  | .LaunchDelay => 1
  | .Coordinates => 2
  | .ClickType => 3
  | .MouseButtonSelection => 4
  | .TimeScaleSelection => 5
  | .CountOfWidgetsDontMove => 6

/-- Constant `widget_count`. -/
def widget_count : Nat := InputWidget.CountOfWidgetsDontMove.toNat

/-- Scoped enumeration `Button` (underlying type `uint8_t`). -/
inductive Button where
  | Start
  | Stop
  | CoordinatesEnabled
  | CountOfButtonsDontMove
  deriving DecidableEq, Repr

/-- Numeric value of a `Button` enumerator. -/
def Button.toNat : Button → Nat
  | .Start => 0
  | .Stop => 1
  | .CoordinatesEnabled => 2
  | .CountOfButtonsDontMove => 3

/-- Constant `button_count`. -/
def button_count : Nat := Button.CountOfButtonsDontMove.toNat

/-- Scoped enumeration `State`. -/
inductive State where
  | Clickable
  | Unclickable
  deriving DecidableEq, Repr

/-- Numeric value of a `State` enumerator. -/
def State.toNat : State → Nat
  | .Clickable => 0
  | .Unclickable => 1

/-- Conversion `static_cast<bool>(state)`: true exactly for a non-zero value. -/
def State.toBool (s : State) : Bool := decide (s.toNat ≠ 0)

/-- Conversion `static_cast<State>(b)` of a `bool`: `false` is the value 0
(`Clickable`), `true` is the value 1 (`Unclickable`). -/
def State.ofBool : Bool → State
  | false => .Clickable
  | true => .Unclickable

/-- Scoped enumeration `TimeScale`. -/
inductive TimeScale where
  | Milliseconds
  | Seconds
  | Minutes
  | Hours
  | CountOfTimeScaleDontMove
  deriving DecidableEq, Repr

/-- Numeric value of a `TimeScale` enumerator. -/
def TimeScale.toNat : TimeScale → Nat
  | .Milliseconds => 0
  | .Seconds => 1
  | .Minutes => 2
  | .Hours => 3
  | .CountOfTimeScaleDontMove => 4

/-- Constant `time_scale_count`. -/
def time_scale_count : Nat := TimeScale.CountOfTimeScaleDontMove.toNat

/-! ## Plain records -/

/-- Record `TimeScaleInfo`. -/
structure TimeScaleInfo where
  title_text : String
  tooltip_text : String
  scale : TimeScale
  deriving DecidableEq, Repr

/-- Record `Stats`; `Stats.init` holds its default member initialisers. -/
structure Stats where
  total_clicks : Nat
  total_left_clicks : Nat
  total_right_clicks : Nat
  total_top_mb_clicks : Nat
  total_bottom_mb_clicks : Nat
  deriving DecidableEq, Repr

/-- Value-initialised `Stats{}`: every counter has the initialiser `{ 0 }`. -/
def Stats.init : Stats :=
  { total_clicks := 0
    total_left_clicks := 0
    total_right_clicks := 0
    total_top_mb_clicks := 0
    total_bottom_mb_clicks := 0 }

/-! ## `std::bitset<N>` -/

/-- A `std::bitset<N>`: one bit for each position below `N`. -/
structure Bitset (N : Nat) where
  bit : Fin N → Bool

/-- Default constructor of `std::bitset<N>`: all bits zero. -/
def Bitset.zero (N : Nat) : Bitset N := ⟨fun _ => false⟩

/-- Subscript `bs[pos]` read as `bool`; undefined for `pos ≥ N`. -/
def Bitset.index {N : Nat} (bs : Bitset N) (pos : Nat) : Option Bool :=
  if h : pos < N then some (bs.bit ⟨pos, h⟩) else none

/-- Member `bs.set(pos, value)`; throws `std::out_of_range` for `pos ≥ N`. -/
def Bitset.set {N : Nat} (bs : Bitset N) (pos : Nat) (value : Bool) :
    Option (Bitset N) :=
  if h : pos < N then some ⟨Function.update bs.bit ⟨pos, h⟩ value⟩ else none

/-! ## The rendering context -/

/-- Win32 constant `INVALID_HANDLE_VALUE`, the handle value `-1`. -/
def INVALID_HANDLE_VALUE : Int := -1

/-- Record `RenderingContext`, field for field. -/
structure RenderingContext where
  button_states : Bitset button_count
  widget_states : Bitset widget_count
  clicking_thread : Int
  stop_click_threadf : Bool
  prev_waiting_for_thread_exit : Bool
  waiting_for_thread_exit : Bool
  first_render_call : Bool
  time_between_click : Int
  launch_delay : Int
  selected_click_type : Int
  all_click_types : List ClickType
  selected_mouse_button : Int
  all_mouse_buttons : List MouseButton
  coords_enabled : Bool
  coords : List Int
  capturing_mouse_coords : Bool
  log_text : String
  stats : Stats
  use_diff_time_scale : Bool
  time_scales : List TimeScaleInfo
  selected_time_scale : Int

/-- A freshly constructed `RenderingContext`: every member takes its default
member initialiser, and the two bitsets are default constructed. -/
def RenderingContext.init : RenderingContext :=
  { button_states := Bitset.zero button_count
    widget_states := Bitset.zero widget_count
    clicking_thread := INVALID_HANDLE_VALUE
    stop_click_threadf := false
    prev_waiting_for_thread_exit := false
    waiting_for_thread_exit := false
    first_render_call := true
    time_between_click := 1
    launch_delay := 1
    selected_click_type := 0
    all_click_types := [ClickType.SingleClick, ClickType.DoubleClick]
    selected_mouse_button := 0
    all_mouse_buttons :=
      [MouseButton.LeftClick, MouseButton.RightClick,
       MouseButton.TopSideButton, MouseButton.BottomSideButton]
    coords_enabled := false
    coords := [0, 0]
    capturing_mouse_coords := false
    log_text := "This is the log text, useful information will live here.\n"
    stats := Stats.init
    use_diff_time_scale := false
    time_scales :=
      [ { title_text := "Number of milliseconds between clicks"
          tooltip_text := "The amount of milliseconds that will pass between clicks."
          scale := TimeScale.Milliseconds },
        { title_text := "Number of seconds between clicks"
          tooltip_text := "The amount of seconds that will pass between clicks."
          scale := TimeScale.Seconds },
        { title_text := "Number of minutes between clicks"
          tooltip_text := "The amount of minutes that will pass between clicks."
          scale := TimeScale.Minutes },
        { title_text := "Number of hours between clicks"
          tooltip_text := "The amount of hours between clicks."
          scale := TimeScale.Hours } ]
    selected_time_scale := 0 }

namespace RenderingContext

/-- Member `logln(fmt, args...)`. The library call `std::format` is the
parameter `format`; it yields `none` when it throws, which ends the call at
the `noexcept` boundary. Otherwise the formatted text and then `"\n"` are
appended to `log_text`. -/
def logln {F A : Type} (format : F → A → Option String)
    (c : RenderingContext) (fmt : F) (args : A) : Option RenderingContext :=
  match format fmt args with
  | none => none
  | some formatted_text =>
    let c1 := { c with log_text := c.log_text ++ formatted_text }
    some { c1 with log_text := c1.log_text ++ "\n" }

/-- Member `get_button_state(button)`. -/
def get_button_state (c : RenderingContext) (button : Button) : Option State :=
  if button = Button.CountOfButtonsDontMove then
    some State.Unclickable
  else
    (c.button_states.index button.toNat).map State.ofBool

/-- Member `set_button_state(button, state)`. -/
def set_button_state (c : RenderingContext) (button : Button) (state : State) :
    Option RenderingContext :=
  if button = Button.CountOfButtonsDontMove then
    some c
  else
    (c.button_states.set button.toNat state.toBool).map
      fun bs => { c with button_states := bs }

/-- Member `get_widget_state(widget)`. -/
def get_widget_state (c : RenderingContext) (widget : InputWidget) : Option State :=
  if widget = InputWidget.CountOfWidgetsDontMove then
    some State.Unclickable
  else
    (c.widget_states.index widget.toNat).map State.ofBool

/-- Member `set_widget_state(widget, state)`. -/
def set_widget_state (c : RenderingContext) (widget : InputWidget) (state : State) :
    Option RenderingContext :=
  if widget = InputWidget.CountOfWidgetsDontMove then
    some c
  else
    (c.widget_states.set widget.toNat state.toBool).map
      fun ws => { c with widget_states := ws }

end RenderingContext

/-! ## Auxiliary facts -/

/-- The two conversions between `State` and `bool` are inverse on `State`. -/
theorem State.ofBool_toBool (s : State) : State.ofBool s.toBool = s := by
  cases s <;> rfl

/-- Every enumerator of `Button` but the sentinel is a position of the bitset. -/
theorem Button.toNat_lt_button_count {b : Button} (hb : b ≠ Button.CountOfButtonsDontMove) :
    b.toNat < button_count := by
  cases b <;> first | exact absurd rfl hb | decide

/-- Every enumerator of `InputWidget` but the sentinel is a position of the bitset. -/
theorem InputWidget.toNat_lt_widget_count {w : InputWidget}
    (hw : w ≠ InputWidget.CountOfWidgetsDontMove) : w.toNat < widget_count := by
  cases w <;> first | exact absurd rfl hw | decide

/-- The numeric value identifies the `Button` enumerator. -/
theorem Button.toNat_injective {a b : Button} (h : a.toNat = b.toNat) : a = b := by
  cases a <;> cases b <;> first | rfl | exact absurd h (by decide)

/-- Reading the position just written gives the written bit. -/
theorem Bitset.index_set_same {N : Nat} (bs : Bitset N) {pos : Nat} (h : pos < N)
    (value : Bool) :
    ∃ bs', bs.set pos value = some bs' ∧ bs'.index pos = some value := by
  refine ⟨⟨Function.update bs.bit ⟨pos, h⟩ value⟩, ?_, ?_⟩
  · simp [Bitset.set, h]
  · simp [Bitset.index, h]

/-- Reading any other position after a write gives the bit it had before. -/
theorem Bitset.index_set_other {N : Nat} (bs bs' : Bitset N) {pos q : Nat}
    (value : Bool) (hs : bs.set pos value = some bs') (hq : q ≠ pos) :
    bs'.index q = bs.index q := by
  unfold Bitset.set at hs
  split at hs
  · rename_i h
    cases hs
    unfold Bitset.index
    split
    · rename_i h2
      have hne : (⟨q, h2⟩ : Fin N) ≠ ⟨pos, h⟩ := by
        intro heq
        exact hq (congrArg Fin.val heq)
      simp [Function.update_noteq hne]
    · rfl
  · cases hs

/-! ## Button and widget flags -/

/-- C1: for every context `c`, every button `b` other than the sentinel
`CountOfButtonsDontMove` and every state `s`, the call `set_button_state(b, s)`
returns, and `get_button_state(b)` on the resulting context returns exactly `s`. -/
theorem set_get_button_state (c : RenderingContext) (b : Button) (s : State)
    (hb : b ≠ Button.CountOfButtonsDontMove) :
    ∃ c', c.set_button_state b s = some c' ∧ c'.get_button_state b = some s := by
  obtain ⟨bs', hset, hidx⟩ :=
    Bitset.index_set_same c.button_states (Button.toNat_lt_button_count hb) s.toBool
  refine ⟨{ c with button_states := bs' }, ?_, ?_⟩
  · simp [RenderingContext.set_button_state, hb, hset]
  · simp [RenderingContext.get_button_state, hb, hidx, State.ofBool_toBool]

/-- On the fresh context, marking `Stop` as `Unclickable` reads back as
`Unclickable`. -/
theorem set_get_button_state_witness :
    Button.Stop ≠ Button.CountOfButtonsDontMove ∧
    ∃ c', RenderingContext.init.set_button_state Button.Stop State.Unclickable = some c' ∧
      c'.get_button_state Button.Stop = some State.Unclickable :=
  ⟨by decide,
   set_get_button_state RenderingContext.init Button.Stop State.Unclickable (by decide)⟩

/-- C2: for every context `c`, every input widget `w` other than the sentinel
`CountOfWidgetsDontMove` and every state `s`, the call `set_widget_state(w, s)`
returns, and `get_widget_state(w)` on the resulting context returns exactly `s`. -/
theorem set_get_widget_state (c : RenderingContext) (w : InputWidget) (s : State)
    (hw : w ≠ InputWidget.CountOfWidgetsDontMove) :
    ∃ c', c.set_widget_state w s = some c' ∧ c'.get_widget_state w = some s := by
  obtain ⟨ws', hset, hidx⟩ :=
    Bitset.index_set_same c.widget_states (InputWidget.toNat_lt_widget_count hw) s.toBool
  refine ⟨{ c with widget_states := ws' }, ?_, ?_⟩
  · simp [RenderingContext.set_widget_state, hw, hset]
  · simp [RenderingContext.get_widget_state, hw, hidx, State.ofBool_toBool]

/-- On the fresh context, marking the `Coordinates` widget as `Unclickable`
reads back as `Unclickable`. -/
theorem set_get_widget_state_witness :
    InputWidget.Coordinates ≠ InputWidget.CountOfWidgetsDontMove ∧
    ∃ c', RenderingContext.init.set_widget_state InputWidget.Coordinates
            State.Unclickable = some c' ∧
      c'.get_widget_state InputWidget.Coordinates = some State.Unclickable :=
  ⟨by decide,
   set_get_widget_state RenderingContext.init InputWidget.Coordinates
     State.Unclickable (by decide)⟩

/-- C7: `set_button_state` changes one flag only. For every context `c`, every
non-sentinel button `b`, every state `s` and every non-sentinel button `b2`
different from `b`, the call `set_button_state(b, s)` returns a context in
which `get_button_state(b2)` has the value it had before, every
`get_widget_state(w)` has the value it had before, and every field other than
`button_states` is unchanged. -/
theorem set_button_state_frame (c : RenderingContext) (b b2 : Button) (s : State)
    (hb : b ≠ Button.CountOfButtonsDontMove)
    (hb2 : b2 ≠ Button.CountOfButtonsDontMove) (hne : b2 ≠ b) :
    ∃ c', c.set_button_state b s = some c' ∧
      c'.get_button_state b2 = c.get_button_state b2 ∧
      (∀ w : InputWidget, c'.get_widget_state w = c.get_widget_state w) ∧
      c' = { c with button_states := c'.button_states } := by
  obtain ⟨bs', hset, _⟩ :=
    Bitset.index_set_same c.button_states (Button.toNat_lt_button_count hb) s.toBool
  have hpos : b2.toNat ≠ b.toNat := fun h => hne (Button.toNat_injective h)
  have hother := Bitset.index_set_other c.button_states bs' s.toBool hset hpos
  refine ⟨{ c with button_states := bs' }, ?_, ?_, ?_, rfl⟩
  · simp [RenderingContext.set_button_state, hb, hset]
  · simp [RenderingContext.get_button_state, hb2, hother]
  · intro w
    simp [RenderingContext.get_widget_state]

/-- On the fresh context, marking `Start` as `Unclickable` leaves `Stop`, the
widget flags and the remaining fields as they were. -/
theorem set_button_state_frame_witness :
    Button.Start ≠ Button.CountOfButtonsDontMove ∧
    Button.Stop ≠ Button.CountOfButtonsDontMove ∧
    Button.Stop ≠ Button.Start ∧
    ∃ c', RenderingContext.init.set_button_state Button.Start State.Unclickable = some c' ∧
      c'.get_button_state Button.Stop = RenderingContext.init.get_button_state Button.Stop ∧
      (∀ w : InputWidget,
        c'.get_widget_state w = RenderingContext.init.get_widget_state w) ∧
      c' = { RenderingContext.init with button_states := c'.button_states } :=
  ⟨by decide, by decide, by decide,
   set_button_state_frame RenderingContext.init Button.Start Button.Stop
     State.Unclickable (by decide) (by decide) (by decide)⟩

/-! ## Logging -/

/-- C3: `logln` appends and never rewrites. Whenever the format string and the
arguments format to the text `t`, the call returns a context whose log text is
the old log text followed by `t` followed by one newline character; the old
log text is a prefix of the new one, the length grows by `length(t) + 1`, and
no field other than `log_text` changes. -/
theorem logln_appends {F A : Type} (format : F → A → Option String)
    (c : RenderingContext) (fmt : F) (args : A) (t : String)
    (ht : format fmt args = some t) :
    ∃ c', c.logln format fmt args = some c' ∧
      c'.log_text = c.log_text ++ t ++ "\n" ∧
      c.log_text.data <+: c'.log_text.data ∧
      c'.log_text.length = c.log_text.length + (t.length + 1) ∧
      c' = { c with log_text := c'.log_text } := by
  refine ⟨{ c with log_text := c.log_text ++ t ++ "\n" }, ?_, rfl, ?_, ?_, rfl⟩
  · simp [RenderingContext.logln, ht]
  · refine ⟨t.data ++ "\n".data, ?_⟩
    simp [String.data_append]
  · simp only [String.length_append]
    have h1 : "\n".length = 1 := rfl
    omega

/-- A format string without replacement fields formats to itself: logging
`"started"` on the fresh context appends `"started"` and a newline. -/
theorem logln_appends_witness :
    (fun (f : String) (_ : Unit) => some f) "started" () = some "started" ∧
    ∃ c', RenderingContext.init.logln (fun (f : String) (_ : Unit) => some f)
            "started" () = some c' ∧
      c'.log_text = RenderingContext.init.log_text ++ "started" ++ "\n" ∧
      RenderingContext.init.log_text.data <+: c'.log_text.data ∧
      c'.log_text.length =
        RenderingContext.init.log_text.length + ("started".length + 1) ∧
      c' = { RenderingContext.init with log_text := c'.log_text } :=
  ⟨rfl,
   logln_appends (fun (f : String) (_ : Unit) => some f) RenderingContext.init
     "started" () "started" rfl⟩

/-! ## The fresh context -/

/-- C4: in a freshly constructed context the table `all_click_types` has
exactly `click_type_count` (= 2) entries, the entry at every index `i < 2` is
the `ClickType` whose numeric value is `i`, and the entry at the default index
`selected_click_type` (= 0) is `SingleClick`. -/
theorem init_click_types_in_enum_order :
    RenderingContext.init.all_click_types.length = click_type_count ∧
    click_type_count = 2 ∧
    (∀ i : Fin 2,
      (RenderingContext.init.all_click_types[i.val]?).map ClickType.toNat = some i.val) ∧
    RenderingContext.init.selected_click_type = 0 ∧
    RenderingContext.init.all_click_types[
        RenderingContext.init.selected_click_type.toNat]? =
      some ClickType.SingleClick := by
  refine ⟨rfl, rfl, ?_, rfl, rfl⟩
  decide

/-- C5: in a freshly constructed context the table `all_mouse_buttons` has
exactly `mouse_button_count` (= 4) entries, the entry at every index `i < 4`
is the `MouseButton` whose numeric value is `i`, and the entry at the default
index `selected_mouse_button` (= 0) is `LeftClick`. -/
theorem init_mouse_buttons_in_enum_order :
    RenderingContext.init.all_mouse_buttons.length = mouse_button_count ∧
    mouse_button_count = 4 ∧
    (∀ i : Fin 4,
      (RenderingContext.init.all_mouse_buttons[i.val]?).map MouseButton.toNat =
        some i.val) ∧
    RenderingContext.init.selected_mouse_button = 0 ∧
    RenderingContext.init.all_mouse_buttons[
        RenderingContext.init.selected_mouse_button.toNat]? =
      some MouseButton.LeftClick := by
  refine ⟨rfl, rfl, ?_, rfl, rfl⟩
  decide

/-- C6: in a freshly constructed context all five counters of `stats` are 0,
so `total_clicks` equals the sum of the four per-button counters. -/
theorem init_stats_consistent :
    RenderingContext.init.stats.total_clicks = 0 ∧
    RenderingContext.init.stats.total_left_clicks = 0 ∧
    RenderingContext.init.stats.total_right_clicks = 0 ∧
    RenderingContext.init.stats.total_top_mb_clicks = 0 ∧
    RenderingContext.init.stats.total_bottom_mb_clicks = 0 ∧
    RenderingContext.init.stats.total_clicks =
      RenderingContext.init.stats.total_left_clicks +
      RenderingContext.init.stats.total_right_clicks +
      RenderingContext.init.stats.total_top_mb_clicks +
      RenderingContext.init.stats.total_bottom_mb_clicks :=
  ⟨rfl, rfl, rfl, rfl, rfl, rfl⟩

end OpenClicker
